import Mathlib

/-!
Verification of the Nebula Talks backend: the presence-event state machine
of `src/backend/main.py`, the multi-protocol signal dispatch layer of
`src/backend/robot_signal.py`, and the resilient myCobot client of
`src/backend/mycobot_integration.py`, shallowly embedded in Lean 4.
-/

namespace NebulaTalks

/-! ## Presence tracking (main.py)

The globals `user_was_present` and `user_spoken` of `main.py` together with
the detection-edge logic inside the `/detect` endpoint (`detect_person`) and
the `/api/robot/mark-spoken` endpoint (`mark_user_spoken`).
-/

/-- The two presence-tracking globals of `main.py`:
`user_was_present` and `user_spoken`. -/
structure PresenceState where
  user_was_present : Bool
  user_spoken : Bool
deriving DecidableEq

/-- The presence events the `/detect` endpoint emits:
`entered` is the go_to_celebrate_pose send on a rising edge,
`leftAfterSpeech` is the wave_hand send plus the user_left_after_speaking
dispatch on a falling edge with `user_spoken` set, and
`left` is the hold_and_home send on any falling edge. -/
inductive Event where
  | entered
  | leftAfterSpeech
  | left
deriving DecidableEq

/-- The presence logic of the `/detect` endpoint of `main.py`
(`detect_person`, lines 193-222): three independent if-branches evaluated
against the old state, then `user_was_present` is set to the detection value.
The second branch also clears `user_spoken`. -/
def detect_person (s : PresenceState) (detected : Bool) : PresenceState × List Event :=
  let enteredEvs := if !s.user_was_present && detected then [Event.entered] else []
  let leftSpeechEvs :=
    if s.user_was_present && s.user_spoken && !detected then [Event.leftAfterSpeech] else []
  let spokenNext :=
    if s.user_was_present && s.user_spoken && !detected then false else s.user_spoken
  let leftEvs := if s.user_was_present && !detected then [Event.left] else []
  ({ user_was_present := detected, user_spoken := spokenNext },
    enteredEvs ++ leftSpeechEvs ++ leftEvs)

/-- The `/api/robot/mark-spoken` endpoint of `main.py` (`mark_user_spoken`):
sets the global `user_spoken` to true, unconditionally. -/
def mark_user_spoken (s : PresenceState) : PresenceState :=
  { s with user_spoken := true }

/-- Processing a finite sequence of detection results in arrival order,
collecting the emitted events. -/
def run_detections (s : PresenceState) : List Bool → PresenceState × List Event
  | [] => (s, [])
  | d :: ds =>
      let r1 := detect_person s d
      let r2 := run_detections r1.1 ds
      (r2.1, r1.2 ++ r2.2)

/-- Number of false-to-true edges of a boolean sequence, given the value
preceding it. -/
def risingEdges (prev : Bool) : List Bool → Nat
  | [] => 0
  | d :: ds => (if !prev && d then 1 else 0) + risingEdges d ds

/-- Number of true-to-false edges of a boolean sequence, given the value
preceding it. -/
def fallingEdges (prev : Bool) : List Bool → Nat
  | [] => 0
  | d :: ds => (if prev && !d then 1 else 0) + fallingEdges d ds

/-! ## Signal dispatch layer (robot_signal.py)

`RobotProtocol`, `RobotConfig`, `RobotSignal` and `RobotSignalService` of
`src/backend/robot_signal.py`.  Python dictionaries are embedded as
association lists with first-match lookup; network primitives (HTTP POST,
WebSocket connect/send, MQTT connect/publish, serial open/write) are an
oracle `Transport` deciding which attempts succeed, and a Python exception
raised by a primitive appears as that oracle returning false.
-/

/-- JSON-like values: the payloads the service serializes and sends. -/
inductive Value where
  | vStr : String → Value
  | vInt : Int → Value
  | vBool : Bool → Value
  | vNull : Value
  | vDict : List (String × Value) → Value

/-- Python `d.get(k)` / `d[k]` lookup on a dict embedded as an association
list: the first pair whose key matches. -/
def pyLookup {α : Type} (d : List (String × α)) (k : String) : Option α :=
  match d.find? (fun p => p.1 == k) with
  | some p => some p.2
  | none => none

/-- Python dict merge of two dicts: keys of the first keep their
position but take the second dict's value when it has one, then the second
dict's new keys follow.  Key-for-key this is the merge the service computes
in `_send_to_robot`. -/
def pyMerge {α : Type} (a b : List (String × α)) : List (String × α) :=
  a.map (fun p =>
    match pyLookup b p.1 with
    | some v => (p.1, v)
    | none => p) ++ b.filter (fun p => (pyLookup a p.1).isNone)

/-- Python `d[k] = v` on a dict embedded as an association list: replace the
value when the key exists, append otherwise. -/
def pyDictInsert {α : Type} (d : List (String × α)) (k : String) (v : α) :
    List (String × α) :=
  if (pyLookup d k).isSome then
    d.map (fun p => if p.1 == k then (k, v) else p)
  else d ++ [(k, v)]

/-- Python truthiness of an optional string field (`if not robot.url` and
friends): none and the empty string are falsy. -/
def optTruthy : Option String → Bool
  | some s => !s.isEmpty
  | none => false

/-- The `RobotProtocol` enum of `robot_signal.py`. -/
inductive RobotProtocol where
  | http
  | websocket
  | mqtt
  | serial
deriving DecidableEq

/-- `RobotProtocol(value)` construction from the wire string: the enum
values are "http", "websocket", "mqtt", "serial"; anything else raises
ValueError (here: none). -/
def RobotProtocol.ofString : String → Option RobotProtocol
  | "http" => some .http
  | "websocket" => some .websocket
  | "mqtt" => some .mqtt
  | "serial" => some .serial
  | _ => none

/-- The `RobotConfig` dataclass of `robot_signal.py` with its defaults. -/
structure RobotConfig where
  id : String
  name : String
  protocol : RobotProtocol
  enabled : Bool := true
  url : Option String := none
  headers : List (String × String) := []
  mqtt_broker : Option String := none
  mqtt_port : Int := 1883
  mqtt_topic : Option String := none
  mqtt_username : Option String := none
  mqtt_password : Option String := none
  serial_port : Option String := none
  serial_baudrate : Int := 9600
  commands : List (String × List (String × Value)) := []

/-- The `RobotSignal` dataclass: the timestamp is kept as its isoformat
string, which is all `to_dict` uses. -/
structure RobotSignal where
  signal_type : String
  timestamp : String
  data : List (String × Value) := []

/-- `RobotSignal.to_dict`: the serialized wire fields. -/
def RobotSignal.to_dict (s : RobotSignal) : List (String × Value) :=
  [("signalType", Value.vStr s.signal_type),
   ("timestamp", Value.vStr s.timestamp),
   ("data", Value.vDict s.data)]

/-- The shared MQTT client the service caches in `self.mqtt_client`: the
broker, port and credentials it was constructed and connected with.
Credentials are set only when the constructing robot had both a truthy
username and a truthy password. -/
structure MqttClientState where
  broker : String
  port : Int
  username : Option String := none
  password : Option String := none

/-- The MQTT client `_send_mqtt` builds on first use from a robot's
configuration. -/
def mqttClientFor (r : RobotConfig) : MqttClientState :=
  if optTruthy r.mqtt_username && optTruthy r.mqtt_password then
    { broker := r.mqtt_broker.getD "", port := r.mqtt_port,
      username := r.mqtt_username, password := r.mqtt_password }
  else
    { broker := r.mqtt_broker.getD "", port := r.mqtt_port }

/-- The mutable connection state of `RobotSignalService`: the robot
registry, the per-robot cached WebSocket and serial handles (kept as the
sets of robot ids holding a live handle) and the shared MQTT client. -/
structure ServiceState where
  robots : List (String × RobotConfig) := []
  websocket_connections : List String := []
  mqtt_client : Option MqttClientState := none
  serial_connections : List String := []

/-- The network oracle: which transport primitives succeed.  A primitive
returning false is a Python exception raised by (or a non-2xx status from)
that call site. -/
structure Transport where
  http_post : String → List (String × String) → List (String × Value) → Bool
  ws_connect : String → Bool
  ws_send : String → List (String × Value) → Bool
  mqtt_connect : String → Int → Bool
  mqtt_publish : MqttClientState → String → List (String × Value) → Bool
  serial_open : String → Int → Bool
  serial_write : String → List (String × Value) → Bool

/-- `_send_http`: no URL is a logged failure; otherwise one POST whose
outcome (2xx versus error) the oracle decides.  No state is cached. -/
def send_http (tr : Transport) (st : ServiceState) (robot : RobotConfig)
    (signal_data : List (String × Value)) : Bool × ServiceState :=
  if !optTruthy robot.url then (false, st)
  else (tr.http_post (robot.url.getD "") robot.headers signal_data, st)

/-- `_send_websocket`: connect lazily when no socket is cached for the
robot id, then send; any error drops the cached socket for that robot and
reports false. -/
def send_websocket (tr : Transport) (st : ServiceState) (robot : RobotConfig)
    (signal_data : List (String × Value)) : Bool × ServiceState :=
  if !optTruthy robot.url then (false, st)
  else if st.websocket_connections.contains robot.id then
    if tr.ws_send robot.id signal_data then (true, st)
    else
      (false, { st with websocket_connections :=
        st.websocket_connections.filter (fun i => i != robot.id) })
  else
    if tr.ws_connect (robot.url.getD "") then
      let st1 := { st with websocket_connections :=
        st.websocket_connections ++ [robot.id] }
      if tr.ws_send robot.id signal_data then (true, st1)
      else
        (false, { st1 with websocket_connections :=
          st1.websocket_connections.filter (fun i => i != robot.id) })
    else (false, st)

/-- `_send_mqtt`: missing broker or topic is a logged failure; otherwise
the shared client is built from this robot's broker, port and credentials
when none is cached yet — and stays cached even when the connect raises,
because `self.mqtt_client` is assigned before `connect` runs.  With a
cached client the call only publishes to this robot's topic through it.
An error never clears `self.mqtt_client`. -/
def send_mqtt (tr : Transport) (st : ServiceState) (robot : RobotConfig)
    (signal_data : List (String × Value)) : Bool × ServiceState :=
  if !optTruthy robot.mqtt_broker || !optTruthy robot.mqtt_topic then (false, st)
  else
    match st.mqtt_client with
    | none =>
        let client := mqttClientFor robot
        let st1 := { st with mqtt_client := some client }
        if tr.mqtt_connect client.broker client.port then
          if tr.mqtt_publish client (robot.mqtt_topic.getD "") signal_data then
            (true, st1)
          else (false, st1)
        else (false, st1)
    | some client =>
        if tr.mqtt_publish client (robot.mqtt_topic.getD "") signal_data then
          (true, st)
        else (false, st)

/-- `_send_serial`: open the port lazily when none is cached for the robot
id, then write the JSON line and flush; any error drops the cached port for
that robot and reports false. -/
def send_serial (tr : Transport) (st : ServiceState) (robot : RobotConfig)
    (signal_data : List (String × Value)) : Bool × ServiceState :=
  if !optTruthy robot.serial_port then (false, st)
  else if st.serial_connections.contains robot.id then
    if tr.serial_write robot.id signal_data then (true, st)
    else
      (false, { st with serial_connections :=
        st.serial_connections.filter (fun i => i != robot.id) })
  else
    if tr.serial_open (robot.serial_port.getD "") robot.serial_baudrate then
      let st1 := { st with serial_connections :=
        st.serial_connections ++ [robot.id] }
      if tr.serial_write robot.id signal_data then (true, st1)
      else
        (false, { st1 with serial_connections :=
          st1.serial_connections.filter (fun i => i != robot.id) })
    else (false, st)

/-- The payload `_send_to_robot` computes: the custom command for the
signal type, when present and non-empty (Python truthiness), is merged over
the serialized signal, override keys winning, top level only. -/
def signalDataFor (robot : RobotConfig) (signal : RobotSignal) :
    List (String × Value) :=
  match pyLookup robot.commands signal.signal_type with
  | some cmd => if cmd.isEmpty then signal.to_dict else pyMerge signal.to_dict cmd
  | none => signal.to_dict

/-- `_send_to_robot`: compute the payload and route on the protocol.  The
method wraps its whole body in a try/except returning false, and each
protocol sender already converts its own errors to false, so the result is
always a boolean. -/
def send_to_robot (tr : Transport) (st : ServiceState) (robot : RobotConfig)
    (signal : RobotSignal) : Bool × ServiceState :=
  let signal_data := signalDataFor robot signal
  match robot.protocol with
  | .http => send_http tr st robot signal_data
  | .websocket => send_websocket tr st robot signal_data
  | .mqtt => send_mqtt tr st robot signal_data
  | .serial => send_serial tr st robot signal_data

/-- The gather over the per-target tasks of `send_signal`: one
`_send_to_robot` attempt per target, results collected in target order.
An earlier target's failure only contributes its false result; every later
target still gets its own attempt. -/
def dispatch_all (tr : Transport) (signal : RobotSignal) :
    ServiceState → List RobotConfig → ServiceState × List (String × Bool)
  | st, [] => (st, [])
  | st, r :: rs =>
      let a := send_to_robot tr st r signal
      let rest := dispatch_all tr signal a.2 rs
      (rest.1, (r.id, a.1) :: rest.2)

/-- The enabled robots of the registry, in registry order: the fan-out
target list of `send_signal` when no robot id is given. -/
def enabledRobots (st : ServiceState) : List RobotConfig :=
  (st.robots.map Prod.snd).filter (fun r => r.enabled)

/-- The Python exceptions the embedded service can let escape. -/
inductive PyError where
  | keyError (key : String)
  | valueError (msg : String)
deriving DecidableEq

/-- The aggregate the service logs: how many per-target results are true.
Mirrors the success-count sum over the gathered results. -/
def success_count (results : List (String × Bool)) : Nat :=
  (results.filter (fun p => p.2)).length

/-- `send_signal`: with a robot id, the single registry entry under that id
(a missing id raises KeyError; `enabled` is not consulted); without one,
every enabled robot.  Each target gets one delivery attempt and the call
returns normally with the per-target outcomes. -/
def send_signal (tr : Transport) (st : ServiceState) (signal : RobotSignal) :
    Option String → Except PyError (ServiceState × List (String × Bool))
  | some rid =>
      match pyLookup st.robots rid with
      | none => .error (.keyError rid)
      | some r => .ok (dispatch_all tr signal st [r])
  | none => .ok (dispatch_all tr signal st (enabledRobots st))

/-- The request body of the `POST /api/robots` endpoint of `main.py`: the
fields `add_robot` reads from the incoming dict, with the defaults it
substitutes for the optional ones. -/
structure RobotRequest where
  id : String
  name : String
  protocol : String
  enabled : Bool := true
  url : Option String := none
  headers : List (String × String) := []
  mqtt_broker : Option String := none
  mqtt_port : Int := 1883
  mqtt_topic : Option String := none
  mqtt_username : Option String := none
  mqtt_password : Option String := none
  serial_port : Option String := none
  serial_baudrate : Int := 9600
  commands : List (String × List (String × Value)) := []

/-- The `RobotConfig` the `add_robot` endpoint (and `load_robots`) builds
from a request once the protocol string parsed: every transport field is
taken as given, absent ones stay none — nothing checks that the protocol's
required fields are present. -/
def configOfRequest (req : RobotRequest) (proto : RobotProtocol) : RobotConfig :=
  { id := req.id, name := req.name, protocol := proto, enabled := req.enabled,
    url := req.url, headers := req.headers, mqtt_broker := req.mqtt_broker,
    mqtt_port := req.mqtt_port, mqtt_topic := req.mqtt_topic,
    mqtt_username := req.mqtt_username, mqtt_password := req.mqtt_password,
    serial_port := req.serial_port, serial_baudrate := req.serial_baudrate,
    commands := req.commands }

/-- The `POST /api/robots` endpoint of `main.py`: `RobotProtocol(...)`
raises ValueError on an unknown protocol string, which escapes to the
caller before the registry is touched; otherwise the robot is stored under
its id with no further validation. -/
def add_robot (st : ServiceState) (req : RobotRequest) :
    Except PyError ServiceState :=
  match RobotProtocol.ofString req.protocol with
  | none => .error (.valueError req.protocol)
  | some proto =>
      .ok { st with robots :=
        pyDictInsert st.robots req.id (configOfRequest req proto) }

/-- The for-loop of `load_robots` over the parsed file, run inside one
try/except that logs and swallows every exception: an unknown protocol
string raises ValueError inside the loop, so the robots before it stay
loaded, the rest of the file is skipped, and the caller sees no error. -/
def load_robots_list (st : ServiceState) : List RobotRequest → ServiceState
  | [] => st
  | req :: rest =>
      match RobotProtocol.ofString req.protocol with
      | none => st
      | some proto =>
          load_robots_list
            { st with robots :=
              pyDictInsert st.robots req.id (configOfRequest req proto) }
            rest

/-! ## Resilient myCobot client (mycobot_integration.py) -/

/-- The connection state of `MyCobotClient`: whether `self.connected` is
set and whether `self.websocket` holds a socket object. -/
structure MyCobotState where
  connected : Bool
  websocket : Bool

/-- `MyCobotClient.send_signal`: not connected (or no socket) returns false
at once, sending nothing and changing nothing — no message is buffered or
queued.  Connected, it serializes the signalType/timestamp/data message and
writes it: the written message is the third component; a write failure
(oracle false) clears `self.connected` and returns false with nothing
delivered. -/
def mycobot_send_signal (writeOk : Bool) (st : MyCobotState)
    (signal_type : String) (ts : String) (data : List (String × Value)) :
    Bool × MyCobotState × Option (List (String × Value)) :=
  if !st.connected || !st.websocket then (false, st, none)
  else
    let message : List (String × Value) :=
      [("signalType", Value.vStr signal_type),
       ("timestamp", Value.vStr ts),
       ("data", Value.vDict data)]
    if writeOk then (true, st, some message)
    else (false, { st with connected := false }, none)

/-! ## Concrete fixtures used to evaluate the embedded code -/

/-- A transport oracle on which every network primitive fails. -/
def trFail : Transport :=
  { http_post := fun _ _ _ => false
    ws_connect := fun _ => false
    ws_send := fun _ _ => false
    mqtt_connect := fun _ _ => false
    mqtt_publish := fun _ _ _ => false
    serial_open := fun _ _ => false
    serial_write := fun _ _ => false }

/-- A transport oracle on which every network primitive succeeds. -/
def trOk : Transport :=
  { http_post := fun _ _ _ => true
    ws_connect := fun _ => true
    ws_send := fun _ _ => true
    mqtt_connect := fun _ _ => true
    mqtt_publish := fun _ _ _ => true
    serial_open := fun _ _ => true
    serial_write := fun _ _ => true }

/-- A service state with no robots and no cached connections. -/
def emptyService : ServiceState := {}

/-- A disabled HTTP robot registered under id r1. -/
def disabledHttpBot : RobotConfig :=
  { id := "r1", name := "R1", protocol := .http, enabled := false,
    url := some "http://robot-r1" }

/-- An MQTT robot with broker and topic configured. -/
def mqttBot : RobotConfig :=
  { id := "m1", name := "M1", protocol := .mqtt,
    mqtt_broker := some "broker-a", mqtt_topic := some "robots/m1" }

/-- A cached shared MQTT client as built from `mqttBot`. -/
def cachedClient : MqttClientState := { broker := "broker-a", port := 1883 }

/-- A second MQTT robot configured with a different broker and topic. -/
def mqttBot2 : RobotConfig :=
  { id := "m2", name := "M2", protocol := .mqtt,
    mqtt_broker := some "broker-b", mqtt_topic := some "robots/m2" }

/-- A robot with both a WebSocket URL and a serial port configured, plus a
wave_hand command override mapping speed to fast. -/
def waveBot : RobotConfig :=
  { id := "w1", name := "W1", protocol := .websocket, url := some "ws://w1",
    serial_port := some "/dev/ttyUSB0",
    commands := [("wave_hand", [("speed", Value.vStr "fast")])] }

/-- An add request for an HTTP robot that names no URL. -/
def noUrlReq : RobotRequest :=
  { id := "h1", name := "H1", protocol := "http" }

/-- An add request with an unknown protocol string. -/
def badProtoReq : RobotRequest :=
  { id := "x1", name := "X1", protocol := "zigbee" }

/-! ## Helper lemmas -/

lemma detect_person_spoken_false (p d : Bool) :
    detect_person ⟨p, false⟩ d =
      (⟨d, false⟩, (if !p && d then [Event.entered] else [])
        ++ (if p && !d then [Event.left] else [])) := by
  cases p <;> cases d <;> rfl

/-- Event counts of a run started with `user_spoken = false`: entered events
match rising edges, left events match falling edges, and no
left-after-speech event is ever emitted (nothing in a pure detection
sequence sets `user_spoken`). -/
lemma run_detections_counts (ds : List Bool) : ∀ p : Bool,
    (run_detections ⟨p, false⟩ ds).2.count Event.entered = risingEdges p ds ∧
    (run_detections ⟨p, false⟩ ds).2.count Event.left = fallingEdges p ds ∧
    (run_detections ⟨p, false⟩ ds).2.count Event.leftAfterSpeech = 0 := by
  induction ds with
  | nil => intro p; simp [run_detections, risingEdges, fallingEdges]
  | cons d ds ih =>
      intro p
      have h := detect_person_spoken_false p d
      simp only [run_detections, h, List.count_append, risingEdges, fallingEdges]
      rcases ih d with ⟨h1, h2, h3⟩
      refine ⟨?_, ?_, ?_⟩ <;> cases p <;> cases d <;>
        simp_all [List.count_cons, List.count_nil]

lemma pyLookup_cons {α : Type} (p : String × α) (d : List (String × α)) (k : String) :
    pyLookup (p :: d) k = if p.1 == k then some p.2 else pyLookup d k := by
  simp only [pyLookup, List.find?]
  cases h : p.1 == k <;> simp [h]

lemma pyLookup_append {α : Type} (a b : List (String × α)) (k : String) :
    pyLookup (a ++ b) k =
      match pyLookup a k with
      | some v => some v
      | none => pyLookup b k := by
  induction a with
  | nil => rfl
  | cons p rest ih =>
      rw [List.cons_append, pyLookup_cons, pyLookup_cons]
      cases h : p.1 == k <;> simp [ih]

lemma pyLookup_mergeMap {α : Type} (a b : List (String × α)) (k : String) :
    pyLookup (a.map (fun p =>
      match pyLookup b p.1 with
      | some v => (p.1, v)
      | none => p)) k =
      match pyLookup a k with
      | some w => match pyLookup b k with
        | some v => some v
        | none => some w
      | none => none := by
  induction a with
  | nil => rfl
  | cons p rest ih =>
      simp only [List.map_cons]
      rw [pyLookup_cons]
      cases hb : pyLookup b p.1 with
      | none =>
          rw [pyLookup_cons]
          cases h : p.1 == k
          · simp [h, ih]
          · have hk : p.1 = k := eq_of_beq h
            subst hk
            simp [hb]
      | some v =>
          rw [show (⟨p.1, v⟩ : String × α).1 = p.1 from rfl, pyLookup_cons]
          cases h : p.1 == k
          · simp [h, ih]
          · have hk : p.1 = k := eq_of_beq h
            subst hk
            simp [hb]

lemma pyLookup_filter_keep {α : Type} (a b : List (String × α)) (k : String)
    (h : pyLookup a k = none) :
    pyLookup (b.filter (fun q => (pyLookup a q.1).isNone)) k = pyLookup b k := by
  induction b with
  | nil => rfl
  | cons q rest ih =>
      rw [pyLookup_cons]
      cases hq : q.1 == k
      · cases hkeep : (pyLookup a q.1).isNone
        · simp [List.filter_cons, hkeep, hq, ih]
        · simp [List.filter_cons, hkeep, pyLookup_cons, hq, ih]
      · have hk : q.1 = k := eq_of_beq hq
        subst hk
        simp [List.filter_cons, h, pyLookup_cons, hq]

lemma pyLookup_filter_drop {α : Type} (a b : List (String × α)) (k : String)
    (h : (pyLookup a k).isSome) :
    pyLookup (b.filter (fun q => (pyLookup a q.1).isNone)) k = none := by
  induction b with
  | nil => rfl
  | cons q rest ih =>
      cases hq : q.1 == k
      · cases hkeep : (pyLookup a q.1).isNone
        · simp [List.filter_cons, hkeep, ih]
        · simp [List.filter_cons, hkeep, pyLookup_cons, hq, ih]
      · have hk : q.1 = k := eq_of_beq hq
        subst hk
        have hkeep : (pyLookup a q.1).isNone = false := by
          cases hx : pyLookup a q.1
          · rw [hx] at h; simp at h
          · rfl
        simp [List.filter_cons, hkeep, ih]

/-- Key-for-key description of the Python dict merge: a key of the second
dict maps to its value there, any other key keeps its value from the first
dict. -/
lemma pyLookup_pyMerge {α : Type} (a b : List (String × α)) (k : String) :
    pyLookup (pyMerge a b) k =
      match pyLookup b k with
      | some v => some v
      | none => pyLookup a k := by
  rw [pyMerge, pyLookup_append, pyLookup_mergeMap]
  cases ha : pyLookup a k with
  | some w =>
      cases hb : pyLookup b k <;> simp
  | none =>
      cases hb : pyLookup b k with
      | none => simp [pyLookup_filter_keep a b k ha, hb]
      | some v => simp [pyLookup_filter_keep a b k ha, hb]

/-- The fan-out gathers exactly one per-target result for every target, in
target order, whatever the transports do. -/
lemma dispatch_all_ids (tr : Transport) (sig : RobotSignal) :
    ∀ (targets : List RobotConfig) (st : ServiceState),
      (dispatch_all tr sig st targets).2.map Prod.fst
        = targets.map RobotConfig.id := by
  intro targets
  induction targets with
  | nil => intro st; rfl
  | cons r rs ih => intro st; simp [dispatch_all, ih]

lemma contains_filter_ne (l : List String) (x : String) :
    ((l.filter (fun i => i != x)).contains x) = false := by
  induction l with
  | nil => rfl
  | cons a as ih =>
      by_cases h : a = x
      · subst h
        simp [List.filter_cons, ih]
      · have hne : (a != x) = true := by simp [h]
        have hbe : (x == a) = false := by
          cases hx : x == a
          · rfl
          · exact absurd (eq_of_beq hx).symm h
        simp only [List.filter_cons, hne, if_true, List.contains_cons, hbe,
          Bool.false_or, ih]

/-! ## Claims -/

/-- C1, counterexample.  From the state present and spoken, one observation
of a detection-false frame emits both the left-after-speech event (the
wave_hand send plus the dispatcher signal) and the left event (the
hold_and_home send): two presence events in one `observe` call, refuting
that at most one event is emitted per call. -/
theorem C1_counterexample :
    (detect_person ⟨true, true⟩ false).2 = [Event.leftAfterSpeech, Event.left] ∧
    1 < (detect_person ⟨true, true⟩ false).2.length := by
  exact ⟨by decide, by decide⟩

/-- C1, amended.  One `observe` call emits at most two events, never an
entered event together with a left-type event (they need opposite edges of
present), and emits two exactly when a present-and-spoken state observes a
detection-false frame — in which case the left-after-speech and the left
event are both emitted, because the hold_and_home branch fires on every
falling edge, with or without speech. -/
theorem C1_per_call_events (s : PresenceState) (d : Bool) :
    (detect_person s d).2.length ≤ 2 ∧
    (Event.entered ∈ (detect_person s d).2 →
      Event.leftAfterSpeech ∉ (detect_person s d).2 ∧
      Event.left ∉ (detect_person s d).2) ∧
    ((detect_person s d).2.length = 2 ↔
      s.user_was_present = true ∧ s.user_spoken = true ∧ d = false) := by
  rcases s with ⟨p, sp⟩
  cases p <;> cases sp <;> cases d <;> decide

/-- C2.  Over any finite detection sequence processed from the initial
state (not present, not spoken), entered events match the false-to-true
edges of the presence value and left plus left-after-speech events match
the true-to-false edges; and observing the same detection value twice in a
row emits nothing the second time, from any state. -/
theorem C2_edge_event_counts :
    (∀ ds : List Bool,
      (run_detections ⟨false, false⟩ ds).2.count Event.entered
          = risingEdges false ds ∧
      (run_detections ⟨false, false⟩ ds).2.count Event.left +
        (run_detections ⟨false, false⟩ ds).2.count Event.leftAfterSpeech
          = fallingEdges false ds) ∧
    (∀ (s : PresenceState) (d : Bool),
      (detect_person (detect_person s d).1 d).2 = []) := by
  constructor
  · intro ds
    rcases run_detections_counts ds false with ⟨h1, h2, h3⟩
    exact ⟨h1, by omega⟩
  · intro s d
    rcases s with ⟨p, sp⟩
    cases p <;> cases sp <;> cases d <;> decide

/-- C8, counterexample.  Marking spoken while nobody is present sets the
spoken flag to true all the same: from the absent, unspoken state the
mark-spoken endpoint produces spoken equal true with present still false,
refuting that mark-spoken has no effect while absent. -/
theorem C8_counterexample :
    (mark_user_spoken ⟨false, false⟩).user_spoken = true ∧
    (mark_user_spoken ⟨false, false⟩).user_was_present = false := by
  exact ⟨rfl, rfl⟩

/-- C8, amended.  The mark-spoken endpoint sets the spoken flag
unconditionally, whatever the present flag is — so spoken can become true
while nobody is present; detection processing itself never sets spoken
(from any spoken-false state it leaves spoken false). -/
theorem C8_mark_spoken_unconditional :
    (∀ s : PresenceState,
      mark_user_spoken s = ⟨s.user_was_present, true⟩) ∧
    (∀ p d : Bool, (detect_person ⟨p, false⟩ d).1.user_spoken = false) := by
  constructor
  · intro s; rcases s with ⟨p, sp⟩; rfl
  · intro p d; cases p <;> cases d <;> rfl

/-- C3.  A fan-out dispatch (no target id) always returns normally with the
gathered per-target outcomes: exactly one delivery attempt per enabled
robot, in registry order, whatever the transports do — so a failure on one
target is only that target's false outcome and every other target still
gets its own attempt — and the aggregate counts the per-target true
outcomes. -/
theorem C3_fanout_isolation (tr : Transport) (st : ServiceState)
    (sig : RobotSignal) :
    send_signal tr st sig none
      = .ok (dispatch_all tr sig st (enabledRobots st)) ∧
    (dispatch_all tr sig st (enabledRobots st)).2.map Prod.fst
      = (enabledRobots st).map RobotConfig.id ∧
    (dispatch_all tr sig st (enabledRobots st)).2.length
      = (enabledRobots st).length ∧
    success_count (dispatch_all tr sig st (enabledRobots st)).2
      = ((dispatch_all tr sig st (enabledRobots st)).2.filter
          (fun p => p.2)).length := by
  refine ⟨rfl, dispatch_all_ids tr sig (enabledRobots st) st, ?_, rfl⟩
  have h := congrArg List.length (dispatch_all_ids tr sig (enabledRobots st) st)
  simpa using h

/-- C4, counterexample.  The registry holds exactly one robot, disabled,
under id r1; a dispatch naming r1 neither surfaces a target-not-found
error nor skips it: the call returns normally with one delivery attempt
recorded for the disabled robot. -/
theorem C4_counterexample :
    send_signal trFail { robots := [("r1", disabledHttpBot)] }
      { signal_type := "wave_hand", timestamp := "t0" } (some "r1")
      = .ok ({ robots := [("r1", disabledHttpBot)] }, [("r1", false)]) := by
  rfl

/-- C4, amended.  With a specific target id, the dispatcher selects the
single registry entry under that id without consulting its enabled flag: a
missing id raises a KeyError to the caller (not a distinct target-not-found
error), while a present but disabled robot still receives one delivery
attempt. -/
theorem C4_targeted_dispatch (tr : Transport) (st : ServiceState)
    (sig : RobotSignal) (rid : String) :
    (pyLookup st.robots rid = none →
      send_signal tr st sig (some rid) = .error (.keyError rid)) ∧
    (∀ r, pyLookup st.robots rid = some r →
      send_signal tr st sig (some rid)
        = .ok ((send_to_robot tr st r sig).2,
            [(r.id, (send_to_robot tr st r sig).1)])) := by
  constructor
  · intro h; simp [send_signal, h]
  · intro r h; simp [send_signal, h, dispatch_all]

/-- C4, witness: the amended claim evaluated at a missing id and at a
disabled robot's id. -/
theorem C4_witness :
    send_signal trFail emptyService
      { signal_type := "s", timestamp := "t" } (some "nope")
      = .error (.keyError "nope") ∧
    send_signal trFail { robots := [("r1", disabledHttpBot)] }
      { signal_type := "s", timestamp := "t" } (some "r1")
      = .ok ((send_to_robot trFail { robots := [("r1", disabledHttpBot)] }
              disabledHttpBot { signal_type := "s", timestamp := "t" }).2,
          [(disabledHttpBot.id,
            (send_to_robot trFail { robots := [("r1", disabledHttpBot)] }
              disabledHttpBot { signal_type := "s", timestamp := "t" }).1)]) := by
  constructor
  · exact (C4_targeted_dispatch trFail emptyService
      { signal_type := "s", timestamp := "t" } "nope").1 rfl
  · exact (C4_targeted_dispatch trFail { robots := [("r1", disabledHttpBot)] }
      { signal_type := "s", timestamp := "t" } "r1").2 disabledHttpBot rfl

/-- C5, counterexample.  With the shared MQTT client cached, a failed
publish returns false yet leaves the cached client in place: the MQTT
handle is not invalidated on a transport error, so the next attempt reuses
the failed handle instead of re-establishing the connection. -/
theorem C5_counterexample :
    (send_mqtt trFail { mqtt_client := some cachedClient } mqttBot []).1
      = false ∧
    (send_mqtt trFail { mqtt_client := some cachedClient } mqttBot []).2.mqtt_client
      = some cachedClient := by
  exact ⟨rfl, rfl⟩

/-- C5, amended.  No connector raises: each returns a boolean.  On a
transport failure the WebSocket and serial connectors do drop the cached
handle for that robot, so the next attempt reconnects from scratch; the
MQTT connector never invalidates the shared client — once cached it
survives every failure unchanged. -/
theorem C5_connector_invalidation (tr : Transport) (st : ServiceState)
    (r : RobotConfig) (p : List (String × Value)) :
    (optTruthy r.url = true → (send_websocket tr st r p).1 = false →
      ((send_websocket tr st r p).2.websocket_connections.contains r.id)
        = false) ∧
    (optTruthy r.serial_port = true → (send_serial tr st r p).1 = false →
      ((send_serial tr st r p).2.serial_connections.contains r.id)
        = false) ∧
    (∀ c, st.mqtt_client = some c →
      (send_mqtt tr st r p).2.mqtt_client = some c) := by
  refine ⟨?_, ?_, ?_⟩
  · intro hu hf
    simp only [send_websocket, hu, Bool.not_true, Bool.false_eq_true,
      if_false] at hf ⊢
    split_ifs at hf ⊢ <;> simp_all [contains_filter_ne]
  · intro hu hf
    simp only [send_serial, hu, Bool.not_true, Bool.false_eq_true,
      if_false] at hf ⊢
    split_ifs at hf ⊢ <;> simp_all [contains_filter_ne]
  · intro c hc
    simp only [send_mqtt, hc]
    split_ifs <;> simp [hc]

/-- C5, witness: the amended claim evaluated on a robot with a cached
WebSocket, a cached serial port and a cached shared MQTT client, all
transports failing. -/
theorem C5_witness :
    ((send_websocket trFail { websocket_connections := ["w1"] } waveBot
        []).2.websocket_connections.contains waveBot.id) = false ∧
    ((send_serial trFail { serial_connections := ["w1"] } waveBot
        []).2.serial_connections.contains waveBot.id) = false ∧
    (send_mqtt trFail { mqtt_client := some cachedClient } mqttBot
        []).2.mqtt_client = some cachedClient := by
  refine ⟨?_, ?_, ?_⟩
  · exact (C5_connector_invalidation trFail
      { websocket_connections := ["w1"] } waveBot []).1 rfl rfl
  · exact (C5_connector_invalidation trFail
      { serial_connections := ["w1"] } waveBot []).2.1 rfl rfl
  · exact (C5_connector_invalidation trFail
      { mqtt_client := some cachedClient } mqttBot []).2.2 cachedClient rfl

/-- C6.  The resilient myCobot client's send: not connected (or no socket)
returns false at once with nothing written, buffered or queued; connected
with a failing write clears the connected flag and returns false with
nothing delivered; connected with a succeeding write returns true having
written the serialized message. -/
theorem C6_resilient_send (w : Bool) (st : MyCobotState) (t ts : String)
    (data : List (String × Value)) :
    ((st.connected = false ∨ st.websocket = false) →
      mycobot_send_signal w st t ts data = (false, st, none)) ∧
    (st.connected = true → st.websocket = true → w = false →
      mycobot_send_signal w st t ts data
        = (false, ⟨false, st.websocket⟩, none)) ∧
    (st.connected = true → st.websocket = true → w = true →
      mycobot_send_signal w st t ts data
        = (true, st, some [("signalType", Value.vStr t),
            ("timestamp", Value.vStr ts), ("data", Value.vDict data)])) := by
  rcases st with ⟨c, ws⟩
  cases c <;> cases ws <;> cases w <;> simp [mycobot_send_signal]

/-- C6, witness: the three branches evaluated at concrete inputs. -/
theorem C6_witness :
    mycobot_send_signal true ⟨false, false⟩ "wave_hand" "t1" []
      = (false, ⟨false, false⟩, none) ∧
    mycobot_send_signal false ⟨true, true⟩ "wave_hand" "t1" []
      = (false, ⟨false, true⟩, none) ∧
    mycobot_send_signal true ⟨true, true⟩ "wave_hand" "t1" []
      = (true, ⟨true, true⟩, some [("signalType", Value.vStr "wave_hand"),
          ("timestamp", Value.vStr "t1"), ("data", Value.vDict [])]) := by
  refine ⟨?_, ?_, ?_⟩
  · exact (C6_resilient_send true ⟨false, false⟩ "wave_hand" "t1" []).1
      (Or.inl rfl)
  · exact (C6_resilient_send false ⟨true, true⟩ "wave_hand" "t1" []).2.1
      rfl rfl rfl
  · exact (C6_resilient_send true ⟨true, true⟩ "wave_hand" "t1" []).2.2
      rfl rfl rfl

/-- C7.  When the robot's commands mapping has a (non-empty) entry for the
signal type, the delivered payload is the shallow merge of that override
over the serialized signal: every top-level override key wins wholesale (no
nested merge) and every serialized field not overridden is preserved; and
the concrete wave_hand example merges speed fast over the default
signalType, timestamp and data fields. -/
theorem C7_command_merge :
    (∀ (robot : RobotConfig) (sig : RobotSignal)
        (cmd : List (String × Value)) (k : String),
      pyLookup robot.commands sig.signal_type = some cmd → cmd ≠ [] →
      ((∀ v, pyLookup cmd k = some v →
          pyLookup (signalDataFor robot sig) k = some v) ∧
       (pyLookup cmd k = none →
          pyLookup (signalDataFor robot sig) k = pyLookup sig.to_dict k))) ∧
    (∀ ts : String,
      signalDataFor waveBot { signal_type := "wave_hand", timestamp := ts }
        = [("signalType", Value.vStr "wave_hand"),
           ("timestamp", Value.vStr ts), ("data", Value.vDict []),
           ("speed", Value.vStr "fast")]) := by
  constructor
  · intro robot sig cmd k hcmd hne
    have hie : cmd.isEmpty = false := by
      cases cmd
      · exact absurd rfl hne
      · rfl
    have hdf : signalDataFor robot sig = pyMerge sig.to_dict cmd := by
      simp [signalDataFor, hcmd, hie]
    constructor
    · intro v hv; rw [hdf, pyLookup_pyMerge, hv]
    · intro hv; rw [hdf, pyLookup_pyMerge, hv]
  · intro ts; rfl

/-- C7, witness: the merge properties evaluated on the wave_hand override:
the override key speed wins and the non-overridden timestamp field is
preserved from the serialized signal. -/
theorem C7_witness :
    pyLookup (signalDataFor waveBot
        { signal_type := "wave_hand", timestamp := "t2" }) "speed"
      = some (Value.vStr "fast") ∧
    pyLookup (signalDataFor waveBot
        { signal_type := "wave_hand", timestamp := "t2" }) "timestamp"
      = pyLookup (RobotSignal.to_dict
          { signal_type := "wave_hand", timestamp := "t2" }) "timestamp" := by
  constructor
  · exact (C7_command_merge.1 waveBot
      { signal_type := "wave_hand", timestamp := "t2" }
      [("speed", Value.vStr "fast")] "speed" rfl (by simp)).1
      (Value.vStr "fast") rfl
  · exact (C7_command_merge.1 waveBot
      { signal_type := "wave_hand", timestamp := "t2" }
      [("speed", Value.vStr "fast")] "timestamp" rfl (by simp)).2 rfl

/-- C9, counterexample.  Adding an HTTP robot that names no URL succeeds:
the endpoint stores it in the registry and surfaces no error, so a missing
required transport field is not rejected at add time. -/
theorem C9_counterexample :
    add_robot emptyService noUrlReq
      = .ok { robots := [("h1", configOfRequest noUrlReq RobotProtocol.http)] } ∧
    (configOfRequest noUrlReq RobotProtocol.http).url = none := by
  exact ⟨rfl, rfl⟩

/-- C9, amended.  Only an unknown protocol string is rejected at add time,
by the ValueError that `RobotProtocol` raises before the registry is
touched; at load time the same error is caught and logged, silently
skipping the rest of the file; a missing required transport field is never
validated at load or add time — the robot is stored as given and the
missing field surfaces only as a false delivery outcome at send time. -/
theorem C9_config_validation (st : ServiceState) (req : RobotRequest) :
    (RobotProtocol.ofString req.protocol = none →
      add_robot st req = .error (.valueError req.protocol)) ∧
    (∀ proto, RobotProtocol.ofString req.protocol = some proto →
      add_robot st req = .ok { st with robots := pyDictInsert st.robots req.id (configOfRequest req proto) }) ∧
    (∀ rest, RobotProtocol.ofString req.protocol = none →
      load_robots_list st (req :: rest) = st) ∧
    (∀ (tr : Transport) (stt : ServiceState) (r : RobotConfig)
        (p : List (String × Value)),
      r.url = none → send_http tr stt r p = (false, stt)) := by
  refine ⟨?_, ?_, ?_, ?_⟩
  · intro h; simp [add_robot, h]
  · intro proto h; simp [add_robot, h]
  · intro rest h; simp [load_robots_list, h]
  · intro tr stt r p h; simp [send_http, h, optTruthy]

/-- C9, witness: an unknown protocol is refused at add time, swallowed at
load time, and an added no-URL HTTP robot fails only at send time. -/
theorem C9_witness :
    add_robot emptyService badProtoReq = .error (.valueError "zigbee") ∧
    load_robots_list emptyService [badProtoReq, noUrlReq] = emptyService ∧
    send_http trOk emptyService (configOfRequest noUrlReq RobotProtocol.http) []
      = (false, emptyService) := by
  refine ⟨?_, ?_, ?_⟩
  · exact (C9_config_validation emptyService badProtoReq).1 rfl
  · exact (C9_config_validation emptyService badProtoReq).2.2.1 [noUrlReq] rfl
  · exact (C9_config_validation emptyService badProtoReq).2.2.2 trOk
      emptyService (configOfRequest noUrlReq RobotProtocol.http) [] rfl

/-- C10.  The shared MQTT client: while none is cached, the first MQTT
delivery that has a broker and topic builds it from that robot's broker,
port and credentials; once cached it is reused unchanged by every later
MQTT delivery — including after any failure — with only the target topic
taken from the current robot, so a later robot configured with a different
broker still publishes through the first robot's client. -/
theorem C10_shared_mqtt_client (tr : Transport) (st : ServiceState)
    (r : RobotConfig) (p : List (String × Value)) :
    (∀ c, st.mqtt_client = some c →
      (send_mqtt tr st r p).2.mqtt_client = some c ∧
      ((optTruthy r.mqtt_broker && optTruthy r.mqtt_topic) = true →
        (send_mqtt tr st r p).1
          = tr.mqtt_publish c (r.mqtt_topic.getD "") p)) ∧
    (st.mqtt_client = none →
      (optTruthy r.mqtt_broker && optTruthy r.mqtt_topic) = true →
      (send_mqtt tr st r p).2.mqtt_client = some (mqttClientFor r)) := by
  constructor
  · intro c hc
    constructor
    · simp only [send_mqtt, hc]
      split_ifs <;> simp [hc]
    · intro hg
      have hb : optTruthy r.mqtt_broker = true := by
        cases hx : optTruthy r.mqtt_broker
        · rw [hx] at hg; simp at hg
        · rfl
      have ht : optTruthy r.mqtt_topic = true := by
        cases hx : optTruthy r.mqtt_topic
        · rw [hx] at hg; simp at hg
        · rfl
      simp only [send_mqtt, hc, hb, ht, Bool.not_true, Bool.or_self,
        Bool.false_eq_true, if_false]
      split_ifs with hp
      · exact hp.symm
      · simp only [Bool.not_eq_true] at hp
        exact hp.symm
  · intro hc hg
    have hb : optTruthy r.mqtt_broker = true := by
      cases hx : optTruthy r.mqtt_broker
      · rw [hx] at hg; simp at hg
      · rfl
    have ht : optTruthy r.mqtt_topic = true := by
      cases hx : optTruthy r.mqtt_topic
      · rw [hx] at hg; simp at hg
      · rfl
    simp only [send_mqtt, hc, hb, ht, Bool.not_true, Bool.or_self,
      Bool.false_eq_true, if_false]
    split_ifs <;> rfl

/-- C10, witness: with the first robot's client cached, a second MQTT
robot with a different broker keeps the cached client and publishes
through it on its own topic; from an empty cache the first robot's
configuration becomes the cached client. -/
theorem C10_witness :
    (send_mqtt trFail { mqtt_client := some cachedClient } mqttBot2
        []).2.mqtt_client = some cachedClient ∧
    (send_mqtt trFail { mqtt_client := some cachedClient } mqttBot2 []).1
      = trFail.mqtt_publish cachedClient (mqttBot2.mqtt_topic.getD "") [] ∧
    (send_mqtt trOk emptyService mqttBot []).2.mqtt_client
      = some (mqttClientFor mqttBot) := by
  refine ⟨?_, ?_, ?_⟩
  · exact ((C10_shared_mqtt_client trFail
      { mqtt_client := some cachedClient } mqttBot2 []).1 cachedClient rfl).1
  · exact ((C10_shared_mqtt_client trFail
      { mqtt_client := some cachedClient } mqttBot2 []).1 cachedClient rfl).2 rfl
  · exact (C10_shared_mqtt_client trOk emptyService mqttBot []).2 rfl rfl

end NebulaTalks
